import Mathlib

/-!
Verification development for the course-enrollment report generator
(`src/app.py`, function `generate_report`).

The program is a single batch transformation: a tabular dataset of
enrollment records (columns "Nombre y apellidos completos",
"Correo de contacto", "Curso de interés", "Hora de inicio") is
aggregated and rendered into a PDF document.  We shallowly embed the
data model and the whole body of `generate_report`: records are a
Lean structure, the pandas operations (`nunique`, `to_datetime`,
`groupby(...).agg(nunique)`, `sort_values`, `drop_duplicates`) are
explicit Lean functions, the produced ReportLab element list is an
inductive type, and the observable side effects (mutation of the
caller's DataFrame, temporary files left on disk) are extra fields of
the result structure.
-/

namespace ReporteInscritos

/-- A parsed timestamp, as produced by `pd.to_datetime`.  Only the
calendar fields that the program observes (ordering via min/max and
`strftime('%d/%m/%Y %H:%M')` formatting) are modelled. -/
structure Timestamp where
  year : Nat
  month : Nat
  day : Nat
  hour : Nat
  minute : Nat
deriving DecidableEq, Repr

/-- A cell of the "Hora de inicio" column: either raw text (the column
has `object` dtype) or an already parsed timestamp (`datetime64` dtype). -/
inductive TimeVal where
  | raw (s : String)
  | parsed (t : Timestamp)
deriving DecidableEq, Repr

/-- One row of the input DataFrame.  The Upload Shell guarantees the four
columns are present, so each is a plain field. -/
structure Record where
  fullName : String
  contactEmail : String
  course : String
  startTime : TimeVal
deriving DecidableEq, Repr

/-- Split a character list on a separator character. -/
def splitChar (c : Char) : List Char → List (List Char)
  | [] => [[]]
  | a :: as =>
    match splitChar c as with
    | [] => [[]]
    | g :: gs => if a = c then [] :: g :: gs else (a :: g) :: gs

/-- Read a nonempty all-digit character list as a number. -/
def digitsToNat (l : List Char) : Option Nat :=
  if l.isEmpty then none
  else if l.all (·.isDigit) then
    some (l.foldl (fun n c => n * 10 + (c.toNat - 48)) 0)
  else none

/-- Modelled from the library boundary: `pd.to_datetime` parses a
recognizable date string and raises otherwise.  We model the ISO-like
format `YYYY-MM-DD HH:MM` with range-checked fields; any other string
is unparsable. -/
def parseRaw (s : String) : Option Timestamp :=
  match splitChar ' ' s.data with
  | [d, t] =>
    match splitChar '-' d, splitChar ':' t with
    | [ys, mos, das], [hs, mis] =>
      match digitsToNat ys, digitsToNat mos, digitsToNat das,
          digitsToNat hs, digitsToNat mis with
      | some y, some mo, some da, some h, some mi =>
        if 1 ≤ mo ∧ mo ≤ 12 ∧ 1 ≤ da ∧ da ≤ 31 ∧ h ≤ 23 ∧ mi ≤ 59 then
          some ⟨y, mo, da, h, mi⟩
        else none
      | _, _, _, _, _ => none
    | _, _ => none
  | _ => none

/-- Parsing a single cell of the timestamp column: an already typed value
is kept, raw text goes through the parser. -/
def parseTimeVal : TimeVal → Option Timestamp
  | .parsed t => some t
  | .raw s => parseRaw s

/-- `df['Hora de inicio'].dtype == 'datetime64[ns]'`: in the model the
column is datetime-typed when every cell is already parsed. -/
def isDatetimeDtype (df : List Record) : Bool :=
  df.all fun r => match r.startTime with
    | .parsed _ => true
    | .raw _ => false

/-- Line 38: `pd.to_datetime(df['Hora de inicio'])` applied cell by cell;
`none` models the raised parse error (default `errors='raise'`). -/
def convertColumn : List Record → Option (List Record)
  | [] => some []
  | r :: rs =>
    match parseTimeVal r.startTime, convertColumn rs with
    | some t, some rs' => some ({ r with startTime := .parsed t } :: rs')
    | _, _ => none

/-- The parsed timestamps present in the column (after conversion all
cells are parsed, so this is the full column). -/
def times (df : List Record) : List Timestamp :=
  df.filterMap fun r => match r.startTime with
    | .parsed t => some t
    | .raw _ => none

/-- Chronological key: the field ranges enforced by the parser make this
strictly monotone in (year, month, day, hour, minute). -/
def Timestamp.key (t : Timestamp) : Nat :=
  (((t.year * 13 + t.month) * 32 + t.day) * 24 + t.hour) * 60 + t.minute

/-- `Series.min()`: `none` models `NaT` (empty column). -/
def tsMin : List Timestamp → Option Timestamp
  | [] => none
  | t :: ts => some (ts.foldl (fun a b => if b.key < a.key then b else a) t)

/-- `Series.max()`: `none` models `NaT` (empty column). -/
def tsMax : List Timestamp → Option Timestamp
  | [] => none
  | t :: ts => some (ts.foldl (fun a b => if a.key < b.key then b else a) t)

/-- Zero-padded two-digit field, as `strftime` renders `%d`, `%m`, `%H`, `%M`. -/
def pad2 (n : Nat) : String :=
  if n < 10 then "0" ++ toString n else toString n

/-- Zero-padded four-digit year, as `strftime` renders `%Y`. -/
def pad4 (n : Nat) : String :=
  if n < 10 then "000" ++ toString n
  else if n < 100 then "00" ++ toString n
  else if n < 1000 then "0" ++ toString n
  else toString n

/-- `strftime('%d/%m/%Y %H:%M')` (lines 40-41). -/
def Timestamp.strftime (t : Timestamp) : String :=
  pad2 t.day ++ "/" ++ pad2 t.month ++ "/" ++ pad4 t.year ++ " " ++
    pad2 t.hour ++ ":" ++ pad2 t.minute

/-- Generic keep-first deduplication, the semantics of
`drop_duplicates` / the value set behind `nunique`.  `seen` accumulates
the values already emitted. -/
def dedupFirst {α : Type} [DecidableEq α] : List α → List α → List α
  | _, [] => []
  | seen, a :: as =>
    if a ∈ seen then dedupFirst seen as else a :: dedupFirst (a :: seen) as

/-- `Series.nunique()`: the number of distinct values in a column. -/
def nunique {α : Type} [DecidableEq α] (l : List α) : Nat :=
  (dedupFirst [] l).length

/-- Insertion step of the sort model. -/
def insertBy {α : Type} (le : α → α → Bool) (a : α) : List α → List α
  | [] => [a]
  | b :: bs => if le a b then a :: b :: bs else b :: insertBy le a bs

/-- Stable insertion sort modelling pandas `sort_values` (any correct
comparison sort satisfies the properties proved below). -/
def sortBy {α : Type} (le : α → α → Bool) : List α → List α
  | [] => []
  | a :: as => insertBy le a (sortBy le as)

/-- Line 44: per-course unique-enrollee count,
`groupby('Curso de interés').agg({'Nombre y apellidos completos': 'nunique'})`:
the number of distinct full names among the course's rows. -/
def courseCount (df : List Record) (c : String) : Nat :=
  nunique ((df.filter fun r => r.course == c).map (·.fullName))

/-- Lines 44-46: the aggregation table `conteo_cursos` — group keys
(sorted ascending by `groupby`), each with its unique-name count, then
`sort_values('Cantidad de inscritos', ascending=False)`. -/
def conteo_cursos (df : List Record) : List (String × Nat) :=
  sortBy (fun p q => decide (q.2 ≤ p.2))
    ((sortBy (fun a b => decide (a ≤ b)) (dedupFirst [] (df.map (·.course)))).map
      fun c => (c, courseCount df c))

/-- The deduplicated-by-(name, email) attendee pairs of a course's rows,
keeping first occurrences: lines 107-110 (`df[df['Curso de interés'] == curso]`
then `drop_duplicates(subset=['Nombre y apellidos completos', 'Correo de contacto'])`;
only those two columns of each kept row are used afterwards). -/
def coursePairs (df : List Record) (c : String) : List (String × String) :=
  (df.filter fun r => r.course == c).map fun r => (r.fullName, r.contactEmail)

/-- Lines 107-113: the course roster rows — deduplicated pairs sorted by
full name ascending (`sort_values('Nombre y apellidos completos')`). -/
def rosterRows (df : List Record) (c : String) : List (String × String) :=
  sortBy (fun p q => decide (p.1 ≤ q.1)) (dedupFirst [] (coursePairs df c))

/-- A ReportLab flowable, as appended to `elementos` (lines 81-138).
Paragraphs carry their text and style name; the chart image carries the
bar data `(course, height)` it renders (line 50: heights are the
`Cantidad de inscritos` column of `conteo_cursos`); tables carry their
cell text. -/
inductive Element where
  | paragraph (text : String) (style : String)
  | spacer
  | image (bars : List (String × Nat))
  | table (rows : List (List String))
deriving DecidableEq, Repr

/-- The wall-clock date at build time, used only by
`datetime.now().strftime("%d/%m/%Y")` (line 84). -/
structure Date where
  year : Nat
  month : Nat
  day : Nat
deriving DecidableEq, Repr

/-- `strftime("%d/%m/%Y")` on the current date. -/
def Date.strftime (d : Date) : String :=
  pad2 d.day ++ "/" ++ pad2 d.month ++ "/" ++ pad4 d.year

/-- Lines 105-138: the three flowables appended for one course — heading
paragraph "Curso: <name> (<N> inscritos)" with `N = len(datos_tabla) - 1`,
the roster table (header row plus one row per deduplicated attendee), and
a spacer. -/
def courseSection (df : List Record) (c : String) : List Element :=
  let datos_tabla : List (List String) :=
    ["Nombre y Apellidos", "Correo de contacto"] ::
      (rosterRows df c).map fun p => [p.1, p.2]
  [ .paragraph ("Curso: " ++ c ++ " (" ++ toString (datos_tabla.length - 1) ++
      " inscritos)") "Normal",
    .table datos_tabla,
    .spacer ]

/-- Lines 81-138: the full `elementos` list handed to `doc.build`,
assembled from the aggregates of lines 34-46. -/
def buildElements (df : List Record) (author : String) (now : Date)
    (total_inscritos : Nat) (fecha_min fecha_max : String)
    (conteo : List (String × Nat)) : List Element :=
  [ .paragraph "REPORTE DE INSCRIPCIONES A CURSOS" "TituloReporte",
    .paragraph ("Fecha de elaboración: " ++ now.strftime) "FechaReporte",
    .paragraph ("Elaborado por: " ++ author) "AutorReporte",
    .spacer,
    .paragraph "Información General" "SubtituloReporte",
    .paragraph ("Total de personas inscritas: <b>" ++ toString total_inscritos ++
      "</b>") "Normal",
    .paragraph ("Fecha de inicio de inscripciones: <b>" ++ fecha_min ++ "</b>") "Normal",
    .paragraph ("Fecha de finalización de inscripciones: <b>" ++ fecha_max ++
      "</b>") "Normal",
    .spacer,
    .paragraph "Distribución de Inscripciones por Curso" "SubtituloReporte",
    .image conteo,
    .spacer,
    .paragraph "Detalle de Inscritos por Curso" "SubtituloReporte" ]
  ++ (conteo.map (·.1)).flatMap (courseSection df)

/-- The exceptions `generate_report` can raise.  `parseError` is the
error raised by `pd.to_datetime` on an unparsable cell (line 38);
`natFormatError` is the `ValueError` raised by `NaT.strftime` when the
column minimum/maximum is `NaT`, which happens exactly on an empty
dataset (lines 40-41). -/
inductive Err where
  | parseError
  | natFormatError
deriving DecidableEq, Repr

/-- Spec §7 classifies core failures into `ValidationError` (empty
dataset, or a timestamp that cannot be parsed) and `RenderError`
(rendering-backend failures).  Both failure paths that exist in
`generate_report`'s code are of the first kind: the parse error is the
unparsable-timestamp case and the `NaT` formatting error is the
empty-dataset case.  No rendering-backend failure is modelled, so no
constructor of `Err` falls in the `RenderError` class. -/
def isValidationError : Err → Bool
  | .parseError => true
  | .natFormatError => true

/-- Equality of call outcomes is decidable (needed to evaluate the toy
runs below). -/
instance {ε α : Type} [DecidableEq ε] [DecidableEq α] : DecidableEq (Except ε α) :=
  fun a b =>
    match a, b with
    | .ok x, .ok y =>
      if h : x = y then .isTrue (by rw [h]) else .isFalse (by simp [h])
    | .error e, .error f =>
      if h : e = f then .isTrue (by rw [h]) else .isFalse (by simp [h])
    | .ok _, .error _ => .isFalse (by simp)
    | .error _, .ok _ => .isFalse (by simp)

/-- The complete observable outcome of one `generate_report` call:
the built document elements (or the raised error), the caller's
DataFrame after the call (line 38 assigns the converted column into the
caller's object), and whether the two `delete=False` temporary files
created at lines 26-31 still exist on disk when the call exits
(line 144 unlinks the chart only on the success path; the PDF path is
returned to the caller on success). -/
structure RunResult where
  outcome : Except Err (List Element)
  dfAfter : List Record
  tempPdfRemains : Bool
  tempChartRemains : Bool
deriving DecidableEq, Repr

/-- The body of `generate_report(df, author_name)` (lines 22-146),
with the build-time clock passed explicitly. -/
def generate_report (df : List Record) (author : String) (now : Date) : RunResult :=
  -- lines 26-31: both temporary files are created with delete=False
  -- line 34
  let total_inscritos := nunique (df.map (·.fullName))
  -- lines 37-38: convert the column unless it is already datetime-typed;
  -- on a parse failure the exception propagates before the assignment runs
  match (if isDatetimeDtype df then some df else convertColumn df) with
  | none =>
    { outcome := .error .parseError, dfAfter := df,
      tempPdfRemains := true, tempChartRemains := true }
  | some df' =>
    -- lines 40-41: strftime on the column min/max; NaT (empty column) raises
    match tsMin (times df'), tsMax (times df') with
    | some mn, some mx =>
      let fecha_min := mn.strftime
      let fecha_max := mx.strftime
      -- lines 44-46
      let conteo := conteo_cursos df'
      -- lines 49-66 draw and save the chart (bars = conteo), lines 69-141
      -- assemble and build the document, line 144 unlinks the chart
      { outcome := .ok (buildElements df' author now total_inscritos
          fecha_min fecha_max conteo),
        dfAfter := df',
        tempPdfRemains := true, tempChartRemains := false }
    | _, _ =>
      { outcome := .error .natFormatError, dfAfter := df',
        tempPdfRemains := true, tempChartRemains := true }

/-- Formulated from the spec's words, for comparison with the code's
aggregation: the number of distinct (fullName, contactEmail) pairs among
a course's records. -/
def distinctPairsCount (df : List Record) (c : String) : Nat :=
  (coursePairs df c).toFinset.card

/-- Formulated from the spec's words, for comparison with the code's
line 34: the number of distinct fullName values across the dataset. -/
def specTotalUnique (df : List Record) : Nat :=
  (df.map (·.fullName)).toFinset.card

/-! ### Properties of the deduplication and sorting models -/

theorem mem_dedupFirst {α : Type} [DecidableEq α] (a : α) :
    ∀ (seen l : List α), a ∈ dedupFirst seen l ↔ a ∈ l ∧ a ∉ seen := by
  intro seen l
  induction l generalizing seen with
  | nil => simp [dedupFirst]
  | cons b bs ih =>
    simp only [dedupFirst]
    by_cases hb : b ∈ seen
    · rw [if_pos hb, ih]
      constructor
      · rintro ⟨h1, h2⟩
        exact ⟨List.mem_cons_of_mem _ h1, h2⟩
      · rintro ⟨h1, h2⟩
        rcases List.mem_cons.mp h1 with rfl | h1
        · exact absurd hb h2
        · exact ⟨h1, h2⟩
    · rw [if_neg hb]
      simp only [List.mem_cons, ih]
      constructor
      · rintro (rfl | ⟨h1, h2⟩)
        · exact ⟨Or.inl rfl, hb⟩
        · push_neg at h2
          exact ⟨Or.inr h1, h2.2⟩
      · rintro ⟨h1, h2⟩
        by_cases hab : a = b
        · exact Or.inl hab
        · rcases h1 with rfl | h1
          · exact Or.inl rfl
          · refine Or.inr ⟨h1, ?_⟩
            push_neg
            exact ⟨hab, h2⟩

theorem dedupFirst_nodup {α : Type} [DecidableEq α] :
    ∀ (seen l : List α), (dedupFirst seen l).Nodup := by
  intro seen l
  induction l generalizing seen with
  | nil => simp [dedupFirst]
  | cons b bs ih =>
    simp only [dedupFirst]
    by_cases hb : b ∈ seen
    · simpa [hb] using ih seen
    · rw [if_neg hb]
      refine List.nodup_cons.mpr ⟨?_, ih _⟩
      intro hmem
      exact ((mem_dedupFirst b _ bs).mp hmem).2 (List.mem_cons_self b seen)

theorem toFinset_dedupFirst {α : Type} [DecidableEq α] (l : List α) :
    (dedupFirst [] l).toFinset = l.toFinset := by
  ext a
  simp [List.mem_toFinset, mem_dedupFirst]

theorem nunique_eq_card {α : Type} [DecidableEq α] (l : List α) :
    nunique l = l.toFinset.card := by
  rw [nunique, ← toFinset_dedupFirst]
  exact (List.toFinset_card_of_nodup (dedupFirst_nodup [] l)).symm

theorem insertBy_perm {α : Type} (le : α → α → Bool) (a : α) :
    ∀ l : List α, (insertBy le a l).Perm (a :: l) := by
  intro l
  induction l with
  | nil => exact List.Perm.refl _
  | cons b bs ih =>
    simp only [insertBy]
    by_cases h : le a b = true
    · rw [if_pos h]
    · rw [if_neg h]
      exact (ih.cons b).trans (List.Perm.swap a b bs)

theorem sortBy_perm {α : Type} (le : α → α → Bool) :
    ∀ l : List α, (sortBy le l).Perm l := by
  intro l
  induction l with
  | nil => exact List.Perm.refl _
  | cons a as ih => exact (insertBy_perm le a (sortBy le as)).trans (ih.cons a)

theorem chain'_insertBy {α : Type} (le : α → α → Bool)
    (htot : ∀ x y, le x y = true ∨ le y x = true) (a : α) :
    ∀ l : List α, List.Chain' (fun x y => le x y = true) l →
      List.Chain' (fun x y => le x y = true) (insertBy le a l) := by
  intro l
  induction l with
  | nil => intro _; simp [insertBy]
  | cons b bs ih =>
    intro hch
    simp only [insertBy]
    by_cases h : le a b = true
    · rw [if_pos h, List.chain'_cons]
      exact ⟨h, hch⟩
    · rw [if_neg h]
      have hba : le b a = true := (htot a b).resolve_left h
      rw [List.chain'_cons']
      refine ⟨?_, ih hch.tail⟩
      intro y hy
      cases bs with
      | nil =>
        simp [insertBy] at hy
        subst hy
        exact hba
      | cons c cs =>
        simp only [insertBy] at hy
        by_cases hac : le a c = true
        · rw [if_pos hac] at hy
          simp at hy
          subst hy
          exact hba
        · rw [if_neg hac] at hy
          simp at hy
          subst hy
          exact (List.chain'_cons.mp hch).1

theorem chain'_sortBy {α : Type} (le : α → α → Bool)
    (htot : ∀ x y, le x y = true ∨ le y x = true) :
    ∀ l : List α, List.Chain' (fun x y => le x y = true) (sortBy le l) := by
  intro l
  induction l with
  | nil => simp [sortBy]
  | cons a as ih => exact chain'_insertBy le htot a _ ih

/-! ### Properties of the aggregation -/

/-- Every entry of `conteo_cursos` pairs a course with its line-44 count. -/
theorem conteo_counts (df : List Record) (p : String × Nat)
    (hp : p ∈ conteo_cursos df) : p.2 = courseCount df p.1 := by
  unfold conteo_cursos at hp
  rw [(sortBy_perm _ _).mem_iff] at hp
  obtain ⟨c, _, rfl⟩ := List.mem_map.mp hp
  rfl

theorem conteo_sorted (df : List Record) :
    List.Chain' (fun p q : String × Nat => q.2 ≤ p.2) (conteo_cursos df) := by
  have h := chain'_sortBy (fun p q : String × Nat => decide (q.2 ≤ p.2))
    (fun x y => by
      rcases Nat.le_total y.2 x.2 with h | h
      · exact Or.inl (decide_eq_true h)
      · exact Or.inr (decide_eq_true h))
    ((sortBy (fun a b => decide (a ≤ b)) (dedupFirst [] (df.map (·.course)))).map
      fun c => (c, courseCount df c))
  exact h.imp fun {a b} hab => of_decide_eq_true hab

/-! ### Properties of the per-course roster -/

theorem mem_rosterRows (df : List Record) (c : String) (p : String × String) :
    p ∈ rosterRows df c ↔ p ∈ coursePairs df c := by
  unfold rosterRows
  rw [(sortBy_perm _ _).mem_iff, mem_dedupFirst]
  simp

theorem rosterRows_nodup (df : List Record) (c : String) :
    (rosterRows df c).Nodup :=
  (sortBy_perm _ _).nodup_iff.mpr (dedupFirst_nodup [] _)

theorem rosterRows_sorted (df : List Record) (c : String) :
    List.Chain' (fun p q : String × String => p.1 ≤ q.1) (rosterRows df c) := by
  have h := chain'_sortBy (fun p q : String × String => decide (p.1 ≤ q.1))
    (fun x y => by
      rcases le_total x.1 y.1 with h | h
      · exact Or.inl (decide_eq_true h)
      · exact Or.inr (decide_eq_true h))
    (dedupFirst [] (coursePairs df c))
  exact h.imp fun {a b} hab => of_decide_eq_true hab

theorem rosterRows_length (df : List Record) (c : String) :
    (rosterRows df c).length = distinctPairsCount df c := by
  have h1 : (rosterRows df c).toFinset = (coursePairs df c).toFinset := by
    ext p
    simp [List.mem_toFinset, mem_rosterRows]
  rw [distinctPairsCount, ← h1,
    List.toFinset_card_of_nodup (rosterRows_nodup df c)]

/-- The names column of a course's rows is the first projection of its
(name, email) pairs. -/
theorem courseCount_eq_nunique_fst (df : List Record) (c : String) :
    courseCount df c = nunique ((coursePairs df c).map Prod.fst) := by
  unfold courseCount coursePairs
  rw [List.map_map]
  rfl

/-- Line 44's count, as the cardinality of the name projection of the
course's distinct pairs. -/
theorem courseCount_eq_card_image (df : List Record) (c : String) :
    courseCount df c = ((coursePairs df c).toFinset.image Prod.fst).card := by
  rw [courseCount_eq_nunique_fst, nunique_eq_card]
  congr 1
  ext b
  simp

/-- A finite set of pairs containing two distinct pairs with the same
first component is strictly larger than its first projection. -/
theorem card_image_fst_lt {S : Finset (String × String)} {p q : String × String}
    (hp : p ∈ S) (hq : q ∈ S) (hne : p ≠ q) (hf : p.1 = q.1) :
    (S.image Prod.fst).card < S.card := by
  have himg : S.image Prod.fst = (S.erase q).image Prod.fst := by
    apply Finset.Subset.antisymm
    · intro x hx
      obtain ⟨r, hr, rfl⟩ := Finset.mem_image.mp hx
      by_cases hrq : r = q
      · subst hrq
        exact Finset.mem_image.mpr ⟨p, Finset.mem_erase.mpr ⟨hne, hp⟩, hf⟩
      · exact Finset.mem_image.mpr ⟨r, Finset.mem_erase.mpr ⟨hrq, hr⟩, rfl⟩
    · exact Finset.image_subset_image (Finset.erase_subset q S)
  calc (S.image Prod.fst).card
      = ((S.erase q).image Prod.fst).card := by rw [himg]
    _ ≤ (S.erase q).card := Finset.card_image_le
    _ < S.card := Finset.card_erase_lt_of_mem hq

/-! ### The in-place column conversion preserves the other columns -/

/-- The rows of two frames agree on the name, email and course columns
(only the timestamp column may differ). -/
def SameData (df df' : List Record) : Prop :=
  List.Forall₂ (fun r r' => r.fullName = r'.fullName ∧
    r.contactEmail = r'.contactEmail ∧ r.course = r'.course) df df'

theorem sameData_refl (df : List Record) : SameData df df := by
  induction df with
  | nil => exact List.Forall₂.nil
  | cons r rs ih => exact List.Forall₂.cons ⟨rfl, rfl, rfl⟩ ih

/-- Line 38's column assignment only replaces timestamp cells. -/
theorem convertColumn_sameData :
    ∀ {df df' : List Record}, convertColumn df = some df' → SameData df df' := by
  intro df
  induction df with
  | nil =>
    intro df' h
    simp only [convertColumn, Option.some.injEq] at h
    subst h
    exact List.Forall₂.nil
  | cons r rs ih =>
    intro df' h
    simp only [convertColumn] at h
    split at h
    · rename_i rs' t heq1 heq2
      rw [Option.some.injEq] at h
      subst h
      exact List.Forall₂.cons ⟨rfl, rfl, rfl⟩ (ih heq2)
    · exact absurd h (by simp)

/-- Moreover the conversion preserves each timestamp's parsed value. -/
theorem convertColumn_parse :
    ∀ {df df' : List Record}, convertColumn df = some df' →
      List.Forall₂ (fun r r' => parseTimeVal r.startTime = parseTimeVal r'.startTime)
        df df' := by
  intro df
  induction df with
  | nil =>
    intro df' h
    simp only [convertColumn, Option.some.injEq] at h
    subst h
    exact List.Forall₂.nil
  | cons r rs ih =>
    intro df' h
    simp only [convertColumn] at h
    split at h
    · rename_i rs' t heq1 heq2
      rw [Option.some.injEq] at h
      subst h
      exact List.Forall₂.cons heq1 (ih heq2)
    · exact absurd h (by simp)

theorem sameData_coursePairs :
    ∀ {df df' : List Record}, SameData df df' →
      ∀ c, coursePairs df' c = coursePairs df c := by
  intro df
  induction df with
  | nil =>
    intro df' h c
    cases h
    rfl
  | cons r rs ih =>
    intro df' h c
    cases h with
    | cons hr htl =>
      rename_i r' rs'
      obtain ⟨h1, h2, h3⟩ := hr
      have tail := ih htl c
      simp only [coursePairs, List.filter_cons] at tail ⊢
      rw [← h3]
      by_cases hc : (r.course == c) = true
      · rw [if_pos hc, if_pos hc, List.map_cons, List.map_cons, tail, ← h1, ← h2]
      · rw [if_neg hc, if_neg hc, tail]

theorem sameData_names :
    ∀ {df df' : List Record}, SameData df df' →
      df'.map (·.fullName) = df.map (·.fullName) := by
  intro df
  induction df with
  | nil => intro df' h; cases h; rfl
  | cons r rs ih =>
    intro df' h
    cases h with
    | cons hr htl =>
      obtain ⟨h1, _, _⟩ := hr
      simp only [List.map_cons, ih htl, ← h1]

theorem sameData_courses :
    ∀ {df df' : List Record}, SameData df df' →
      df'.map (·.course) = df.map (·.course) := by
  intro df
  induction df with
  | nil => intro df' h; cases h; rfl
  | cons r rs ih =>
    intro df' h
    cases h with
    | cons hr htl =>
      obtain ⟨_, _, h3⟩ := hr
      simp only [List.map_cons, ih htl, ← h3]

theorem sameData_courseCount {df df' : List Record} (h : SameData df df')
    (c : String) : courseCount df' c = courseCount df c := by
  rw [courseCount_eq_nunique_fst, courseCount_eq_nunique_fst,
    sameData_coursePairs h]

theorem sameData_conteo {df df' : List Record} (h : SameData df df') :
    conteo_cursos df' = conteo_cursos df := by
  unfold conteo_cursos
  rw [sameData_courses h]
  have hfun : (fun c => (c, courseCount df' c)) = fun c => (c, courseCount df c) :=
    funext fun c => by rw [sameData_courseCount h]
  rw [hfun]

theorem sameData_rosterRows {df df' : List Record} (h : SameData df df')
    (c : String) : rosterRows df' c = rosterRows df c := by
  unfold rosterRows
  rw [sameData_coursePairs h]

theorem sameData_courseSection {df df' : List Record} (h : SameData df df')
    (c : String) : courseSection df' c = courseSection df c := by
  unfold courseSection
  rw [sameData_rosterRows h]

/-! ### Run inversion -/

theorem convert_if_sameData {df df' : List Record}
    (h : (if isDatetimeDtype df then some df else convertColumn df) = some df') :
    SameData df df' := by
  by_cases hd : isDatetimeDtype df
  · rw [if_pos hd, Option.some.injEq] at h
    subst h
    exact sameData_refl df
  · rw [if_neg hd] at h
    exact convertColumn_sameData h

/-- Inversion of a successful run: the element list `doc.build` received,
in terms of the converted frame `df'`. -/
theorem generate_report_ok {df : List Record} {a : String} {now : Date}
    {es : List Element}
    (h : (generate_report df a now).outcome = .ok es) :
    ∃ df' mn mx,
      (if isDatetimeDtype df then some df else convertColumn df) = some df' ∧
      SameData df df' ∧
      tsMin (times df') = some mn ∧ tsMax (times df') = some mx ∧
      es = buildElements df' a now (nunique (df.map (·.fullName)))
        mn.strftime mx.strftime (conteo_cursos df') := by
  unfold generate_report at h
  split at h
  · simp at h
  · rename_i df' heq
    split at h
    · rename_i mn mx hmn hmx
      simp only [Except.ok.injEq] at h
      exact ⟨df', mn, mx, heq, convert_if_sameData heq, hmn, hmx, h.symm⟩
    · simp at h

/-- The caller's frame after the call: it is the input itself, or the
input with its timestamp column converted in place. -/
theorem generate_report_dfAfter (df : List Record) (a : String) (now : Date) :
    (generate_report df a now).dfAfter = df ∨
      (isDatetimeDtype df = false ∧
        convertColumn df = some (generate_report df a now).dfAfter) := by
  unfold generate_report
  by_cases hd : isDatetimeDtype df
  · rw [if_pos hd]
    left
    split
    · rfl
    · rename_i df' heq
      rw [Option.some.injEq] at heq
      subst heq
      split <;> rfl
  · rw [if_neg hd]
    rcases hc : convertColumn df with _ | df'
    · left
      rfl
    · right
      refine ⟨by simp [hd], ?_⟩
      split
      · rename_i heq
        exact absurd heq (by simp)
      · rename_i df2 heq
        rw [Option.some.injEq] at heq
        subst heq
        split <;> rfl

/-- A frame containing an unparsable timestamp cell is not
datetime-typed, so line 38's conversion does run. -/
theorem isDatetimeDtype_false_of_bad {df : List Record}
    (h : ∃ r ∈ df, parseTimeVal r.startTime = none) :
    isDatetimeDtype df = false := by
  obtain ⟨r, hr, hp⟩ := h
  rcases hrt : r.startTime with s | t
  · unfold isDatetimeDtype
    rw [List.all_eq_false]
    exact ⟨r, hr, by rw [hrt]; simp⟩
  · rw [hrt] at hp
    simp [parseTimeVal] at hp

/-- `pd.to_datetime` raises as soon as some cell is unparsable. -/
theorem convertColumn_none :
    ∀ {df : List Record}, (∃ r ∈ df, parseTimeVal r.startTime = none) →
      convertColumn df = none := by
  intro df
  induction df with
  | nil => intro h; simp at h
  | cons r rs ih =>
    intro h
    obtain ⟨s, hs, hp⟩ := h
    rcases List.mem_cons.mp hs with rfl | hs
    · simp [convertColumn, hp]
    · have htl := ih ⟨s, hs, hp⟩
      rcases hh : parseTimeVal r.startTime with _ | t
      · simp [convertColumn, hh]
      · simp [convertColumn, hh, htl]

theorem parseSame_refl (df : List Record) :
    List.Forall₂ (fun r r' => parseTimeVal r.startTime = parseTimeVal r'.startTime)
      df df := by
  induction df with
  | nil => exact List.Forall₂.nil
  | cons r rs ih => exact List.Forall₂.cons rfl ih

/-- Drop the generation-date line (element index 1) of a built document,
leaving the content that does not depend on the build-time clock. -/
def stripGenDate : Except Err (List Element) → Except Err (List Element)
  | .ok es => .ok (es.eraseIdx 1)
  | .error e => .error e

/-- The elements of a successful run (`[]` after a failure). -/
def okElements (r : RunResult) : List Element :=
  match r.outcome with
  | .ok es => es
  | .error _ => []

/-! ### Concrete fixtures for the toy runs -/

/-- 2025-01-01 10:00, a sample parsed timestamp. -/
def ts0 : Timestamp := ⟨2025, 1, 1, 10, 0⟩

/-- A build date for the toy runs. -/
def d0 : Date := ⟨2025, 3, 4⟩

/-- One course "C" with two registrations that share the full name "A"
but differ in contact email. -/
def dfSharedName : List Record :=
  [ ⟨"A", "e1", "C", .parsed ts0⟩, ⟨"A", "e2", "C", .parsed ts0⟩ ]

/-- One record whose timestamp cell is raw (but parsable) text. -/
def dfRawTime : List Record := [ ⟨"A", "e", "C", .raw "2025-01-02 10:30"⟩ ]

/-- One record whose timestamp cell cannot be parsed. -/
def dfBadTime : List Record := [ ⟨"A", "e", "C", .raw "tomorrow-ish"⟩ ]

/-- Spec §8's scenario dataset: person A enrolled twice in CursoX with
the same email, person B once in CursoY. -/
def dfTwoCourses : List Record :=
  [ ⟨"A", "a@x", "CursoX", .parsed ts0⟩,
    ⟨"A", "a@x", "CursoX", .parsed ts0⟩,
    ⟨"B", "b@x", "CursoY", .parsed ⟨2025, 1, 2, 9, 30⟩⟩ ]

/-! ### The claims -/

/-- C1, counterexample: on the dataset with two registrations for course
"C" that share the full name "A" but have different emails, line 44's
aggregation (the chart bar height) yields 1 while the number of distinct
(fullName, contactEmail) pairs is 2 — so the claimed equality is false. -/
theorem c1_counterexample :
    decide (∀ p ∈ conteo_cursos dfSharedName,
      p.2 = distinctPairsCount dfSharedName p.1) = false ∧
    conteo_cursos dfSharedName = [("C", 1)] ∧
    distinctPairsCount dfSharedName "C" = 2 := by
  refine ⟨by decide, by decide, by decide⟩

/-- C1 (amended): the per-course enrollment count used in aggregation
(and rendered as each chart bar's height) equals the number of distinct
fullName values among that course's records — not distinct
(fullName, contactEmail) pairs — and the course groups are sorted
descending by that count. -/
theorem c1_amended_counts_and_order (df : List Record) :
    (∀ p ∈ conteo_cursos df,
      p.2 = ((df.filter fun r => r.course == p.1).map (·.fullName)).toFinset.card) ∧
    List.Chain' (fun p q : String × Nat => q.2 ≤ p.2) (conteo_cursos df) := by
  constructor
  · intro p hp
    rw [conteo_counts df p hp, courseCount]
    exact nunique_eq_card _
  · exact conteo_sorted df

/-- C1 (amended), witness: on the shared-name dataset the single
aggregated group ("C", 1) carries the distinct-name count 1. -/
theorem c1_amended_witness :
    ("C", 1) ∈ conteo_cursos dfSharedName ∧
    (1 : Nat) = ((dfSharedName.filter fun r => r.course == "C").map
      (·.fullName)).toFinset.card :=
  ⟨by decide, (c1_amended_counts_and_order dfSharedName).1 ("C", 1) (by decide)⟩

/-- C2: on the empty dataset `generate_report` fails — `Series.min()` is
`NaT` and `strftime` raises at line 40 — before any document is built,
and spec §7 classifies this empty-dataset failure as the
`ValidationError` kind.  The outcome being an error, no element list is
ever handed to `doc.build`. -/
theorem c2_empty_dataset_fails (a : String) (now : Date) :
    (generate_report [] a now).outcome = .error .natFormatError ∧
    isValidationError .natFormatError = true :=
  ⟨rfl, rfl⟩

/-- C3: whenever some record's timestamp cell cannot be parsed,
`pd.to_datetime` raises at line 38 (no row is dropped: the conversion is
all-or-nothing), the run fails before any document is built, and spec §7
classifies this unparsable-timestamp failure as the `ValidationError`
kind. -/
theorem c3_unparsable_timestamp_fails (df : List Record) (a : String) (now : Date)
    (h : ∃ r ∈ df, parseTimeVal r.startTime = none) :
    (generate_report df a now).outcome = .error .parseError ∧
    isValidationError .parseError = true ∧
    (generate_report df a now).dfAfter = df := by
  have hd : isDatetimeDtype df = false := isDatetimeDtype_false_of_bad h
  have hc : convertColumn df = none := convertColumn_none h
  unfold generate_report
  rw [if_neg (by simp [hd]), hc]
  exact ⟨rfl, rfl, rfl⟩

/-- C3, witness: the dataset whose only record carries the unparsable
timestamp "tomorrow-ish" fails with the parse error. -/
theorem c3_witness :
    (∃ r ∈ dfBadTime, parseTimeVal r.startTime = none) ∧
    (generate_report dfBadTime "Oscar Ivan Vargas Pineda" d0).outcome =
      .error .parseError :=
  ⟨by decide,
    (c3_unparsable_timestamp_fails dfBadTime "Oscar Ivan Vargas Pineda" d0
      (by decide)).1⟩

/-- C4, counterexample: the empty-dataset run exits with an error, yet
both temporary files created at lines 26-31 — the chart image and the
draft PDF — are still on disk, because the only cleanup (line 144) is on
the success path.  This refutes "all intermediate artifacts are removed
on every exit path". -/
theorem c4_counterexample :
    (generate_report [] "x" d0).outcome = .error .natFormatError ∧
    (generate_report [] "x" d0).tempChartRemains = true ∧
    (generate_report [] "x" d0).tempPdfRemains = true :=
  ⟨rfl, rfl, rfl⟩

/-- C4 (amended): the chart image is removed only on the success path
(line 144, right after `doc.build`), while the PDF file always remains —
on success it is the returned output the caller must delete, and on
either failure exit (unparsable timestamp or empty dataset) both the
chart and the draft PDF are left on persistent storage. -/
theorem c4_amended_cleanup (df : List Record) (a : String) (now : Date) :
    ((∃ es, (generate_report df a now).outcome = .ok es) →
      (generate_report df a now).tempChartRemains = false) ∧
    (∀ e, (generate_report df a now).outcome = .error e →
      (generate_report df a now).tempChartRemains = true) ∧
    (generate_report df a now).tempPdfRemains = true := by
  unfold generate_report
  split
  · refine ⟨?_, fun e _ => rfl, rfl⟩
    rintro ⟨es, hes⟩
    simp at hes
  · split
    · exact ⟨fun _ => rfl, fun e he => by simp at he, rfl⟩
    · refine ⟨?_, fun e _ => rfl, rfl⟩
      rintro ⟨es, hes⟩
      simp at hes

/-- C5: in every successful run, the "Total de personas inscritas"
figure of the general-information block (element 5 of the document) is
the number of distinct fullName values of the input dataset — line 34's
`nunique` on the name column alone, not name+email. -/
theorem c5_total_unique (df : List Record) (a : String) (now : Date)
    (es : List Element) (h : (generate_report df a now).outcome = .ok es) :
    es[5]? = some (.paragraph
      ("Total de personas inscritas: <b>" ++ toString (specTotalUnique df) ++ "</b>")
      "Normal") := by
  obtain ⟨df', mn, mx, _, hsame, hmn, hmx, hes⟩ := generate_report_ok h
  subst hes
  have htot : nunique (df.map (·.fullName)) = specTotalUnique df := by
    rw [specTotalUnique]
    exact nunique_eq_card _
  rw [← htot]
  rfl

/-- C5, witness: the §8 scenario dataset (A twice in CursoX, B once in
CursoY) succeeds and reports 2 distinct enrollees. -/
theorem c5_witness :
    (generate_report dfTwoCourses "x" d0).outcome =
      .ok (okElements (generate_report dfTwoCourses "x" d0)) ∧
    (okElements (generate_report dfTwoCourses "x" d0))[5]? =
      some (.paragraph ("Total de personas inscritas: <b>" ++
        toString (specTotalUnique dfTwoCourses) ++ "</b>") "Normal") :=
  ⟨by rfl, c5_total_unique dfTwoCourses "x" d0 _ (by rfl)⟩

/-- C6: in every successful run, the chart element (index 10) renders
the aggregated groups with non-increasing bar heights, and the course
sections that follow the fixed preamble (the elements from index 13 on)
are generated from the same groups in the same order. -/
theorem c6_descending_order (df : List Record) (a : String) (now : Date)
    (es : List Element) (h : (generate_report df a now).outcome = .ok es) :
    ∃ bars : List (String × Nat),
      es[10]? = some (.image bars) ∧
      List.Chain' (fun p q : String × Nat => q.2 ≤ p.2) bars ∧
      es.drop 13 = (bars.map (·.1)).flatMap (courseSection df) := by
  obtain ⟨df', mn, mx, _, hsame, hmn, hmx, hes⟩ := generate_report_ok h
  subst hes
  have hsec : courseSection df' = courseSection df :=
    funext fun c => sameData_courseSection hsame c
  refine ⟨conteo_cursos df', by rfl, conteo_sorted df', ?_⟩
  rw [← hsec]
  rfl

/-- C6, witness: the §8 scenario run succeeds; its bars and sections are
ordered with non-increasing counts. -/
theorem c6_witness :
    ∃ bars : List (String × Nat),
      (okElements (generate_report dfTwoCourses "x" d0))[10]? =
        some (.image bars) ∧
      List.Chain' (fun p q : String × Nat => q.2 ≤ p.2) bars ∧
      (okElements (generate_report dfTwoCourses "x" d0)).drop 13 =
        (bars.map (·.1)).flatMap (courseSection dfTwoCourses) :=
  c6_descending_order dfTwoCourses "x" d0 _ (by rfl)

/-- C7: a course's section consists of the heading
"Curso: `<name>` (`<N>` inscritos)" with N the number of data rows, the
two-column table whose data rows are the roster, and a spacer; the
roster lists each distinct (fullName, contactEmail) pair of the course's
records exactly once (no duplicates, membership is exactly the course's
pairs), sorted ascending by fullName, and N equals the deduplicated pair
count. -/
theorem c7_roster (df : List Record) (c : String) :
    courseSection df c =
      [ Element.paragraph ("Curso: " ++ c ++ " (" ++
          toString (rosterRows df c).length ++ " inscritos)") "Normal",
        Element.table (["Nombre y Apellidos", "Correo de contacto"] ::
          (rosterRows df c).map fun p => [p.1, p.2]),
        Element.spacer ] ∧
    (rosterRows df c).Nodup ∧
    (∀ p : String × String, p ∈ rosterRows df c ↔ p ∈ coursePairs df c) ∧
    List.Chain' (fun p q : String × String => p.1 ≤ q.1) (rosterRows df c) ∧
    (rosterRows df c).length = distinctPairsCount df c := by
  refine ⟨?_, rosterRows_nodup df c, fun p => mem_rosterRows df c p,
    rosterRows_sorted df c, rosterRows_length df c⟩
  simp [courseSection]

/-- C8, counterexample: a dataset whose timestamp column is raw text is
mutated by the call — line 38 assigns the parsed column into the
caller's frame — so the caller's dataset is NOT unchanged. -/
theorem c8_counterexample :
    decide ((generate_report dfRawTime "x" d0).dfAfter = dfRawTime) = false ∧
    (generate_report dfRawTime "x" d0).dfAfter =
      [⟨"A", "e", "C", .parsed ⟨2025, 1, 2, 10, 30⟩⟩] := by
  refine ⟨by decide, by decide⟩

/-- C8 (amended): `generate_report` can mutate its input: when the
timestamp column is not already datetime-typed it is replaced in place
by its parsed form (the caller's frame after the call is the converted
frame); the frame is returned unchanged otherwise.  In either case no
record is added or removed, the name, email and course columns are
untouched, and each timestamp's parsed value is preserved. -/
theorem c8_amended_mutation (df : List Record) (a : String) (now : Date) :
    ((generate_report df a now).dfAfter = df ∨
      (isDatetimeDtype df = false ∧
        convertColumn df = some (generate_report df a now).dfAfter)) ∧
    SameData df (generate_report df a now).dfAfter ∧
    List.Forall₂ (fun r r' => parseTimeVal r.startTime = parseTimeVal r'.startTime)
      df (generate_report df a now).dfAfter := by
  refine ⟨generate_report_dfAfter df a now, ?_, ?_⟩
  · rcases generate_report_dfAfter df a now with h | ⟨_, h⟩
    · rw [h]
      exact sameData_refl df
    · exact convertColumn_sameData h
  · rcases generate_report_dfAfter df a now with h | ⟨_, h⟩
    · rw [h]
      exact parseSame_refl df
    · exact convertColumn_parse h

/-- C9: the built document's textual content is a function of the
dataset and author alone: two runs at different wall-clock dates agree
on everything except element 1, and element 1 is exactly the
"Fecha de elaboración" line carrying the build date. -/
theorem c9_deterministic (df : List Record) (a : String) (t1 t2 : Date) :
    stripGenDate (generate_report df a t1).outcome =
      stripGenDate (generate_report df a t2).outcome ∧
    (∀ es, (generate_report df a t1).outcome = .ok es →
      es[1]? = some (.paragraph ("Fecha de elaboración: " ++ t1.strftime)
        "FechaReporte")) := by
  constructor
  · unfold generate_report
    split
    · rfl
    · split <;> rfl
  · intro es h
    obtain ⟨df', mn, mx, _, _, _, _, hes⟩ := generate_report_ok h
    subst hes
    rfl

/-- C10: if a course's records contain two distinct
(fullName, contactEmail) pairs sharing the same fullName, the heading
count N (deduplicated by name+email, printed at line 122) is strictly
greater than the chart bar height for that course (line 44's name-only
count), so the two displayed figures disagree. -/
theorem c10_heading_exceeds_bar (df : List Record) (c : String)
    (p q : String × String) (hp : p ∈ coursePairs df c)
    (hq : q ∈ coursePairs df c) (hne : p ≠ q) (hf : p.1 = q.1) :
    courseCount df c < (rosterRows df c).length ∧
    (courseSection df c).head? = some (.paragraph ("Curso: " ++ c ++ " (" ++
      toString (rosterRows df c).length ++ " inscritos)") "Normal") := by
  constructor
  · rw [rosterRows_length, distinctPairsCount, courseCount_eq_card_image]
    exact card_image_fst_lt (List.mem_toFinset.mpr hp)
      (List.mem_toFinset.mpr hq) hne hf
  · simp [courseSection]

/-- C10, witness: in the shared-name dataset, course "C" shows heading
count 2 against bar height 1. -/
theorem c10_witness :
    ("A", "e1") ∈ coursePairs dfSharedName "C" ∧
    ("A", "e2") ∈ coursePairs dfSharedName "C" ∧
    courseCount dfSharedName "C" < (rosterRows dfSharedName "C").length :=
  ⟨by decide, by decide,
    (c10_heading_exceeds_bar dfSharedName "C" ("A", "e1") ("A", "e2")
      (by decide) (by decide) (by decide) rfl).1⟩

end ReporteInscritos
